import Mathlib

/-
Verification of the authenticated transport layer of the portfolio client:
a shallow embedding of src/api-services/client.ts (ApiClient) and
src/api-services/auth.service.ts (AuthService), together with theorems about
token storage, the 401 refresh-and-retry interceptor, and sign-out.

Modelling conventions:
- localStorage is restricted to the two keys the auth layer uses
  ('auth_token', 'refresh_token') and modelled as a `Store` record of two
  `Option String` fields.
- JavaScript truthiness on strings matters: `if (token)`, `if (!refreshToken)`
  and `!!localStorage.getItem('auth_token')` treat the empty string like
  absence, so the embedding tests `= ""` wherever the source tests truthiness.
- a Promise that can reject is embedded as an `Except` value; `try/catch`
  becomes a match on that `Except`.
- network outcomes (what the server answers) are oracle parameters: the
  renewal exchange gets a `RefreshExchange`, each send of a request consumes
  one element of a `List SendOutcome`.
-/

namespace AuthCore

/-- The slice of localStorage the auth layer touches: the values stored under
the keys auth_token and refresh_token (client.ts lines 64-70, 74, 90-91;
auth.service.ts lines 20-21). `none` means the key is absent. -/
structure Store where
  auth_token : Option String
  refresh_token : Option String
deriving DecidableEq, Repr

/-- Store with both keys removed, as left by handleAuthFailure (client.ts
lines 90-91) and signOut (auth.service.ts lines 47-48). -/
def emptyStore : Store := ⟨none, none⟩

/-- ApiClient.getAuthToken / AuthService.getAuthToken: read the auth_token
key (client.ts lines 64-66, auth.service.ts lines 113-115). -/
def getAuthToken (st : Store) : Option String :=
  st.auth_token

/-- ApiClient.setAuthToken: write the auth_token key only (client.ts
lines 68-70). -/
def setAuthToken (st : Store) (token : String) : Store :=
  { st with auth_token := some token }

/-- AuthService.isAuthenticated (auth.service.ts lines 108-110):
double-negation of getItem, so true exactly when a non-empty access token
string is stored (the empty string is falsy in JavaScript). -/
def isAuthenticated (st : Store) : Bool :=
  match st.auth_token with
  | none => false
  | some t => !(t == "")

/-- Outcome of the POST to the renewal endpoint /auth/refresh as the client
observes it: a resolved response carrying the new pair in its data, or a
rejection of the await (network failure, 5xx, invalid/expired grant). -/
inductive RefreshExchange where
  | ok (accessToken refreshToken : String)
  | networkError
  | serverError
  | invalidGrant
deriving DecidableEq, Repr

/-- Result of ApiClient.refreshAuthToken: the store afterwards, how many times
the renewal endpoint was invoked (0 or 1), and the promise outcome — `Except`
so that a rejection is representable at all. -/
structure RefreshResult where
  store : Store
  endpointCalls : Nat
  value : Except Unit (Option String)
deriving Repr

/-- Body of ApiClient.refreshAuthToken before its catch (client.ts
lines 74-83): read refresh_token; a missing or empty (falsy) value resolves
null without any network call; otherwise POST /auth/refresh — on a resolved
response destructure accessToken from the data, store it via setAuthToken and
resolve it; an awaited rejection propagates. -/
def refreshAttempt (st : Store) (exch : RefreshExchange) :
    Store × Nat × Except Unit (Option String) :=
  match st.refresh_token with
  | none => (st, 0, Except.ok none)
  | some rt =>
    if rt = "" then (st, 0, Except.ok none)
    else
      match exch with
      | RefreshExchange.ok a _ => (setAuthToken st a, 1, Except.ok (some a))
      | RefreshExchange.networkError => (st, 1, Except.error ())
      | RefreshExchange.serverError => (st, 1, Except.error ())
      | RefreshExchange.invalidGrant => (st, 1, Except.error ())

/-- ApiClient.refreshAuthToken (client.ts lines 72-87): the body wrapped in
try/catch — any rejection of the body is caught and turned into a resolved
null, leaving the store as it was. -/
def refreshAuthToken (st : Store) (exch : RefreshExchange) : RefreshResult :=
  match refreshAttempt st exch with
  | (st1, n, Except.ok v) => ⟨st1, n, Except.ok v⟩
  | (_, n, Except.error _) => ⟨st, n, Except.ok none⟩

/-- Observable client state threaded through the interceptor: the token store
plus whether handleAuthFailure has redirected the window to /sign-in. -/
structure ClientState where
  store : Store
  redirectedToSignIn : Bool
deriving DecidableEq, Repr

/-- ApiClient.handleAuthFailure (client.ts lines 89-93): remove both tokens
and redirect to the sign-in page. -/
def handleAuthFailure (_cs : ClientState) : ClientState :=
  { store := emptyStore, redirectedToSignIn := true }

/-- An axios request config as far as the interceptors look at it: the
_retry marker the response interceptor sets before retrying (client.ts
lines 42-43), and the Authorization header currently on the config. -/
structure RequestConfig where
  retryFlag : Bool
  authHeader : Option String
deriving DecidableEq, Repr

/-- The request interceptor (client.ts lines 21-28): if getAuthToken is
truthy it overwrites the Authorization header with it; otherwise the config
goes out with whatever header it already had. Returns the bearer value the
send actually carries. -/
def requestHeader (st : Store) (req : RequestConfig) : Option String :=
  match getAuthToken st with
  | none => req.authHeader
  | some t => if t = "" then req.authHeader else some t

/-- What the server answers to one send of the request: a 2xx success that the
response interceptor passes through, or an error carrying an HTTP status
(the response interceptor only looks at error.response.status). -/
inductive SendOutcome where
  | success
  | httpError (status : Nat)
deriving DecidableEq, Repr

/-- How one trip through the pipeline ends for the caller: the response is
returned, the promise rejects with formatError(error) of the given status
(client.ts line 59), or the refresh-catch branch rejects with the refresh
error after handleAuthFailure (client.ts lines 52-56). -/
inductive PipelineResult where
  | resolved
  | rejectedFormatted (status : Nat)
  | rejectedRefresh
deriving DecidableEq, Repr

/-- Trace of one request through the pipeline: final client state, number of
renewal-endpoint invocations, number of times the request was sent, the
bearer header of each send in order, and the outcome handed to the caller. -/
structure RunResult where
  state : ClientState
  endpointCalls : Nat
  sends : Nat
  sentHeaders : List (Option String)
  result : PipelineResult
deriving DecidableEq, Repr

/-- One request driven through the interceptors of client.ts (lines 19-62),
consuming one `SendOutcome` per send. A 401 on a config whose _retry marker is
unset marks the config, awaits refreshAuthToken and, when that resolves a
truthy token, stores it, rewrites the Authorization header and re-issues the
request through the same interceptor chain; any falsy token falls through to
the formatted rejection, and a rejection of refreshAuthToken would hit the
catch branch (handleAuthFailure + reject). Any other error status, and a 401
on an already-marked config, rejects formatted at once. An exhausted oracle
list models no further response arriving. -/
def runRequest : ClientState → RequestConfig → RefreshExchange → List SendOutcome → RunResult
  | cs, _, _, [] => ⟨cs, 0, 0, [], PipelineResult.resolved⟩
  | cs, req, exch, o :: rest =>
    let hdr := requestHeader cs.store req
    match o with
    | SendOutcome.success => ⟨cs, 0, 1, [hdr], PipelineResult.resolved⟩
    | SendOutcome.httpError status =>
      if status = 401 ∧ req.retryFlag = false then
        let r := refreshAuthToken cs.store exch
        match r.value with
        | Except.ok (some tok) =>
          if tok = "" then
            ⟨{ cs with store := r.store }, r.endpointCalls, 1, [hdr],
              PipelineResult.rejectedFormatted status⟩
          else
            let k := runRequest { cs with store := r.store }
              { retryFlag := true, authHeader := some tok } exch rest
            ⟨k.state, r.endpointCalls + k.endpointCalls, 1 + k.sends,
              hdr :: k.sentHeaders, k.result⟩
        | Except.ok none =>
          ⟨{ cs with store := r.store }, r.endpointCalls, 1, [hdr],
            PipelineResult.rejectedFormatted status⟩
        | Except.error _ =>
          ⟨handleAuthFailure { cs with store := r.store }, r.endpointCalls, 1, [hdr],
            PipelineResult.rejectedRefresh⟩
      else
        ⟨cs, 0, 1, [hdr], PipelineResult.rejectedFormatted status⟩

/-- A burst of n logically concurrent requests that each receive a 401 while
no refresh is in flight, each then completing its retry. The code keeps no
in-flight coordination state whatsoever — no handler reads or writes anything
another handler's refresh branch consults — so the renewal-call count is the
same under every interleaving and the burst is embedded as the sequential
composition of the n independent handlers. Returns the final state and the
total number of renewal-endpoint invocations. -/
def burst401 : Nat → ClientState → RefreshExchange → ClientState × Nat
  | 0, cs, _ => (cs, 0)
  | n + 1, cs, exch =>
    let r := runRequest cs ⟨false, none⟩ exch
      [SendOutcome.httpError 401, SendOutcome.success]
    let p := burst401 n r.state exch
    (p.1, r.endpointCalls + p.2)

/-- The credential pair as stored by the auth layer (types.ts AuthTokens). -/
structure AuthTokens where
  accessToken : String
  refreshToken : String
deriving DecidableEq, Repr

/-- The two setItem calls that persist a fresh pair (auth.service.ts
lines 20-21, likewise 35-36, 70-71, 100-101): both keys written in one
synchronous run-to-completion step. -/
def storeTokens (_st : Store) (t : AuthTokens) : Store :=
  { auth_token := some t.accessToken, refresh_token := some t.refreshToken }

/-- Reading the persisted pair back: getItem on both keys; the pair is present
only when both halves are. -/
def readPair (st : Store) : Option AuthTokens :=
  match st.auth_token, st.refresh_token with
  | some a, some r => some ⟨a, r⟩
  | _, _ => none

/-- Spec-side definition, for the refinement comparison of the session view:
the spec's "TokenStore is non-empty" — some stored entry is present. -/
def specStoreNonEmpty (st : Store) : Bool :=
  st.auth_token.isSome || st.refresh_token.isSome

/-- The ApiResponse shape AuthService.refreshToken inspects: the success flag
and the optional tokens object in the data (auth.service.ts line 69). -/
structure ServiceRefreshResponse where
  success : Bool
  tokens : Option AuthTokens
deriving DecidableEq, Repr

/-- Outcome of the apiClient.post('/auth/refresh', ...) await inside
AuthService.refreshToken: a resolved ApiResponse, or a rejection. -/
inductive ServiceRefreshOutcome where
  | resolved (resp : ServiceRefreshResponse)
  | thrown
deriving DecidableEq, Repr

/-- AuthService.refreshToken (auth.service.ts lines 60-79): a missing or
falsy refresh token resolves null with no call; on a resolved response with
success and a tokens object, both keys are written and the pair returned;
any other resolved response, and any rejection (the catch), resolves null
leaving the store untouched. -/
def authServiceRefreshToken (st : Store) (out : ServiceRefreshOutcome) :
    Store × Option AuthTokens :=
  match st.refresh_token with
  | none => (st, none)
  | some rt =>
    if rt = "" then (st, none)
    else
      match out with
      | ServiceRefreshOutcome.resolved resp =>
        match resp.success, resp.tokens with
        | true, some t => (storeTokens st t, some t)
        | true, none => (st, none)
        | false, _ => (st, none)
      | ServiceRefreshOutcome.thrown => (st, none)

/-- Outcome of the remote apiClient.post('/auth/signout') call as signOut
awaits it. -/
inductive RemoteSignOut where
  | succeeded
  | failed
deriving DecidableEq, Repr

/-- AuthService.signOut (auth.service.ts lines 42-50): await the remote call
inside try; the finally block removes both tokens unconditionally; after the
finally runs, a rejection of the remote call still propagates to the caller. -/
def signOut (_st : Store) (remote : RemoteSignOut) : Store × Except Unit Unit :=
  match remote with
  | RemoteSignOut.succeeded => (emptyStore, Except.ok ())
  | RemoteSignOut.failed => (emptyStore, Except.error ())

end AuthCore

namespace AuthCore

/-- Helper: refreshAuthToken always resolves — its catch converts every
rejection of the body into a resolved null. -/
theorem refreshAuthToken_value_ok (st : Store) (exch : RefreshExchange) :
    ∃ v, (refreshAuthToken st exch).value = Except.ok v := by
  cases h : st.refresh_token with
  | none => exact ⟨none, by simp [refreshAuthToken, refreshAttempt, h]⟩
  | some rt =>
    by_cases hrt : rt = ""
    · exact ⟨none, by simp [refreshAuthToken, refreshAttempt, h, hrt]⟩
    · cases exch <;> simp [refreshAuthToken, refreshAttempt, h, hrt]

/-- Helper: no run of the response interceptor ends in the refresh-catch
branch, and the sign-in redirect flag is never changed by it. -/
theorem runRequest_no_refresh_reject (outs : List SendOutcome) :
    ∀ cs req exch,
      (runRequest cs req exch outs).result ≠ PipelineResult.rejectedRefresh ∧
      (runRequest cs req exch outs).state.redirectedToSignIn = cs.redirectedToSignIn := by
  induction outs with
  | nil => intro cs req exch; simp [runRequest]
  | cons o rest ih =>
    intro cs req exch
    cases o with
    | success => simp [runRequest]
    | httpError status =>
      by_cases hc : status = 401 ∧ req.retryFlag = false
      · obtain ⟨v, hv⟩ := refreshAuthToken_value_ok cs.store exch
        cases v with
        | none => simp [runRequest, hc, hv]
        | some tok =>
          by_cases htok : tok = ""
          · simp [runRequest, hc, hv, htok]
          · have h2 := ih { cs with store := (refreshAuthToken cs.store exch).store }
              ⟨true, some tok⟩ exch
            simpa [runRequest, hc, hv, htok] using h2
      · simp [runRequest, hc]

/-- C1: the spec requires the renewal endpoint to be invoked exactly once
across a burst of N concurrent AuthExpired responses, but the code has no
single-flight coordination: a burst of two concurrent 401s, each holding the
stored refresh token r0 while the exchange answers the pair (a1, r1), invokes
POST /auth/refresh twice — once per caller — instead of exactly once. -/
theorem burst_two_concurrent_401_two_renewal_calls :
    (burst401 2 ⟨⟨some "a0", some "r0"⟩, false⟩ (RefreshExchange.ok "a1" "r1")).2 = 2 := by
  decide

/-- C2: on a 401 with the _retry marker unset and a usable refresh token, a
successful refresh re-executes the original request exactly once, bearing the
new access token, and the outcome of that single retry — including a second
401 — is returned as-is with no further refresh or retry. -/
theorem retry_after_refresh_exactly_once
    (cs : ClientState) (req : RequestConfig) (a r rt : String) (o₂ : SendOutcome)
    (hflag : req.retryFlag = false) (hrt : cs.store.refresh_token = some rt)
    (hrtne : rt ≠ "") (hane : a ≠ "") :
    (runRequest cs req (RefreshExchange.ok a r)
        [SendOutcome.httpError 401, o₂]).endpointCalls = 1 ∧
    (runRequest cs req (RefreshExchange.ok a r)
        [SendOutcome.httpError 401, o₂]).sends = 2 ∧
    (runRequest cs req (RefreshExchange.ok a r)
        [SendOutcome.httpError 401, o₂]).sentHeaders =
      [requestHeader cs.store req, some a] ∧
    (runRequest cs req (RefreshExchange.ok a r)
        [SendOutcome.httpError 401, o₂]).result =
      (match o₂ with
        | SendOutcome.success => PipelineResult.resolved
        | SendOutcome.httpError s => PipelineResult.rejectedFormatted s) := by
  cases o₂ with
  | success =>
    simp [runRequest, refreshAuthToken, refreshAttempt, requestHeader, getAuthToken,
      setAuthToken, hflag, hrt, hrtne, hane]
  | httpError s =>
    simp [runRequest, refreshAuthToken, refreshAttempt, requestHeader, getAuthToken,
      setAuthToken, hflag, hrt, hrtne, hane]

/-- Witness for C2 at a concrete burst: store (w0, wr), refresh returns w1,
and the retried request is rejected 401 again — one endpoint call, two sends,
the retry bearing w1, and the second 401 returned formatted as-is. -/
theorem retry_after_refresh_exactly_once_witness :
    (runRequest ⟨⟨some "w0", some "wr"⟩, false⟩ ⟨false, some "w0"⟩
        (RefreshExchange.ok "w1" "w2")
        [SendOutcome.httpError 401, SendOutcome.httpError 401]).endpointCalls = 1 ∧
    (runRequest ⟨⟨some "w0", some "wr"⟩, false⟩ ⟨false, some "w0"⟩
        (RefreshExchange.ok "w1" "w2")
        [SendOutcome.httpError 401, SendOutcome.httpError 401]).sends = 2 ∧
    (runRequest ⟨⟨some "w0", some "wr"⟩, false⟩ ⟨false, some "w0"⟩
        (RefreshExchange.ok "w1" "w2")
        [SendOutcome.httpError 401, SendOutcome.httpError 401]).sentHeaders =
      [some "w0", some "w1"] ∧
    (runRequest ⟨⟨some "w0", some "wr"⟩, false⟩ ⟨false, some "w0"⟩
        (RefreshExchange.ok "w1" "w2")
        [SendOutcome.httpError 401, SendOutcome.httpError 401]).result =
      PipelineResult.rejectedFormatted 401 :=
  retry_after_refresh_exactly_once ⟨⟨some "w0", some "wr"⟩, false⟩ ⟨false, some "w0"⟩
    "w1" "w2" "wr" (SendOutcome.httpError 401) rfl rfl (by decide) (by decide)

/-- C3: the spec requires a terminal refresh failure (invalid grant) to clear
the TokenStore, reject waiters with RefreshFailed and force a sign-out, but at
store (a3, r3) with the exchange answering invalid-grant the code leaves both
tokens in place, never redirects to sign-in, and rejects the caller with the
formatted original 401 instead — the intended failure handling
(handleAuthFailure) is never reached. -/
theorem invalid_grant_leaves_store_and_session :
    (runRequest ⟨⟨some "a3", some "r3"⟩, false⟩ ⟨false, none⟩
        RefreshExchange.invalidGrant [SendOutcome.httpError 401]).state.store =
      ⟨some "a3", some "r3"⟩ ∧
    (runRequest ⟨⟨some "a3", some "r3"⟩, false⟩ ⟨false, none⟩
        RefreshExchange.invalidGrant
        [SendOutcome.httpError 401]).state.redirectedToSignIn = false ∧
    (runRequest ⟨⟨some "a3", some "r3"⟩, false⟩ ⟨false, none⟩
        RefreshExchange.invalidGrant [SendOutcome.httpError 401]).result =
      PipelineResult.rejectedFormatted 401 ∧
    (runRequest ⟨⟨some "a3", some "r3"⟩, false⟩ ⟨false, none⟩
        RefreshExchange.invalidGrant [SendOutcome.httpError 401]).endpointCalls = 1 := by
  decide

/-- Counterexample to C4: at store (a0, r0) a successful renewal answering the
pair (a1, r1) through ApiClient.refreshAuthToken leaves the store holding the
new access token a1 alongside the stale, already-consumed refresh token r0 —
the new pair is not written together. -/
theorem client_refresh_keeps_stale_refresh_token_cex :
    (refreshAuthToken ⟨some "a0", some "r0"⟩ (RefreshExchange.ok "a1" "r1")).store =
      ⟨some "a1", some "r0"⟩ ∧ ("r0" : String) ≠ "r1" := by
  decide

/-- C4 as amended: a successful renewal through AuthService.refreshToken
writes the full new pair together, but the ApiClient 401-path refresh writes
only the new access token, leaving the previously stored refresh token
unchanged. -/
theorem refresh_write_granularity (st : Store) (rt a r : String)
    (hrt : st.refresh_token = some rt) (hne : rt ≠ "") :
    (authServiceRefreshToken st
        (ServiceRefreshOutcome.resolved ⟨true, some ⟨a, r⟩⟩)).1 = ⟨some a, some r⟩ ∧
    (refreshAuthToken st (RefreshExchange.ok a r)).store =
      { st with auth_token := some a } := by
  simp [authServiceRefreshToken, refreshAuthToken, refreshAttempt, storeTokens,
    setAuthToken, hrt, hne]

/-- Witness for the amended C4 at store (a4, r4) with the exchange answering
the pair (a4n, r4n). -/
theorem refresh_write_granularity_witness :
    (authServiceRefreshToken ⟨some "a4", some "r4"⟩
        (ServiceRefreshOutcome.resolved ⟨true, some ⟨"a4n", "r4n"⟩⟩)).1 =
      ⟨some "a4n", some "r4n"⟩ ∧
    (refreshAuthToken ⟨some "a4", some "r4"⟩ (RefreshExchange.ok "a4n" "r4n")).store =
      ⟨some "a4n", some "r4"⟩ :=
  refresh_write_granularity ⟨some "a4", some "r4"⟩ "r4" "a4n" "r4n" rfl (by decide)

/-- Counterexample to C5: at a store holding a stale access token a5 and no
refresh token, a 401 is propagated without any renewal call, but no sign-out
happens — the client is never redirected to sign-in and still reports
authenticated afterwards, instead of moving to Unauthenticated. -/
theorem missing_refresh_token_no_sign_out_cex :
    (runRequest ⟨⟨some "a5", none⟩, false⟩ ⟨false, none⟩ RefreshExchange.invalidGrant
        [SendOutcome.httpError 401]).state.redirectedToSignIn = false ∧
    isAuthenticated (runRequest ⟨⟨some "a5", none⟩, false⟩ ⟨false, none⟩
        RefreshExchange.invalidGrant [SendOutcome.httpError 401]).state.store = true := by
  decide

/-- C5 as amended: on a 401 with no refresh token stored, no renewal call is
attempted and the failure is propagated immediately to the caller, with the
client state left entirely unchanged — no sign-out is triggered. -/
theorem missing_refresh_token_propagates
    (cs : ClientState) (req : RequestConfig) (exch : RefreshExchange)
    (hflag : req.retryFlag = false) (hrt : cs.store.refresh_token = none) :
    (runRequest cs req exch [SendOutcome.httpError 401]).endpointCalls = 0 ∧
    (runRequest cs req exch [SendOutcome.httpError 401]).result =
      PipelineResult.rejectedFormatted 401 ∧
    (runRequest cs req exch [SendOutcome.httpError 401]).state = cs := by
  simp [runRequest, refreshAuthToken, refreshAttempt, hflag, hrt]

/-- Witness for the amended C5 at an empty-refresh store with a server-error
exchange oracle. -/
theorem missing_refresh_token_propagates_witness :
    (runRequest ⟨⟨some "x5", none⟩, false⟩ ⟨false, none⟩ RefreshExchange.serverError
        [SendOutcome.httpError 401]).endpointCalls = 0 ∧
    (runRequest ⟨⟨some "x5", none⟩, false⟩ ⟨false, none⟩ RefreshExchange.serverError
        [SendOutcome.httpError 401]).result = PipelineResult.rejectedFormatted 401 ∧
    (runRequest ⟨⟨some "x5", none⟩, false⟩ ⟨false, none⟩ RefreshExchange.serverError
        [SendOutcome.httpError 401]).state = ⟨⟨some "x5", none⟩, false⟩ :=
  missing_refresh_token_propagates ⟨⟨some "x5", none⟩, false⟩ ⟨false, none⟩
    RefreshExchange.serverError rfl rfl

/-- Counterexample to C6: when the remote sign-out call fails, signOut
rejects — the finally block clears the store but does not swallow the
exception, so calling signOut can throw. -/
theorem sign_out_rejects_on_remote_failure_cex :
    (signOut ⟨some "a6", some "r6"⟩ RemoteSignOut.failed).2 = Except.error () := rfl

/-- C6 as amended: signOut clears both tokens unconditionally — after every
call, and after any second call, the TokenStore is empty regardless of the
remote outcome — but it propagates the remote call's failure: it resolves
exactly when the remote sign-out call succeeded. -/
theorem sign_out_clears_unconditionally (st : Store) (o o₂ : RemoteSignOut) :
    (signOut st o).1 = emptyStore ∧
    (signOut (signOut st o).1 o₂).1 = emptyStore ∧
    ((signOut st o).2 = Except.ok () ↔ o = RemoteSignOut.succeeded) := by
  cases o <;> cases o₂ <;> simp [signOut, emptyStore]

/-- Counterexample to C7: the ApiClient itself changes the TokenStore — the
401 refresh path at store (a7, r7) with the exchange answering (a8, r8)
leaves a different store, so the claim that the pipeline never writes the
TokenStore is false. -/
theorem client_writes_token_store_cex :
    (refreshAuthToken ⟨some "a7", some "r7"⟩ (RefreshExchange.ok "a8" "r8")).store ≠
      ⟨some "a7", some "r7"⟩ := by
  decide

/-- C7 as amended: besides reading the TokenStore and doing network I/O, the
ApiClient also writes it — a successful refresh writes the new access token
(setAuthToken), and handleAuthFailure clears both tokens; the sign-in/up/out
writes belong to the session layer. -/
theorem client_store_writes_characterized (st : Store) (rt a r : String)
    (cs : ClientState) (hrt : st.refresh_token = some rt) (hne : rt ≠ "") :
    (refreshAuthToken st (RefreshExchange.ok a r)).store = setAuthToken st a ∧
    (handleAuthFailure cs).store = emptyStore := by
  simp [refreshAuthToken, refreshAttempt, handleAuthFailure, hrt, hne]

/-- Witness for the amended C7 at store (a7w, r7w). -/
theorem client_store_writes_characterized_witness :
    (refreshAuthToken ⟨some "a7w", some "r7w"⟩ (RefreshExchange.ok "a8w" "r8w")).store =
      setAuthToken ⟨some "a7w", some "r7w"⟩ "a8w" ∧
    (handleAuthFailure ⟨⟨some "a7w", some "r7w"⟩, false⟩).store = emptyStore :=
  client_store_writes_characterized ⟨some "a7w", some "r7w"⟩ "r7w" "a8w" "r8w"
    ⟨⟨some "a7w", some "r7w"⟩, false⟩ rfl (by decide)

/-- C8: refreshAuthToken is total over failure outcomes — for every store and
every exchange outcome its promise resolves (with the token or null), never
rejects — and consequently the interceptor's catch branch is unreachable from
the 401 path: no run ends in rejectedRefresh and the sign-in redirect of
handleAuthFailure never fires. -/
theorem refresh_never_rejects_catch_unreachable :
    (∀ st exch, ∃ v, (refreshAuthToken st exch).value = Except.ok v) ∧
    (∀ cs req exch outs,
      (runRequest cs req exch outs).result ≠ PipelineResult.rejectedRefresh ∧
      (runRequest cs req exch outs).state.redirectedToSignIn = cs.redirectedToSignIn) :=
  ⟨refreshAuthToken_value_ok,
    fun cs req exch outs => runRequest_no_refresh_reject outs cs req exch⟩

/-- Counterexample to C9: a store holding only a refresh token r9 is non-empty
in the spec's sense, yet isAuthenticated reports false — the derived session
state is not "Authenticated iff the TokenStore is non-empty". -/
theorem is_authenticated_ignores_refresh_token_cex :
    specStoreNonEmpty ⟨none, some "r9"⟩ = true ∧
    isAuthenticated ⟨none, some "r9"⟩ = false := by
  decide

/-- C9 as amended: isAuthenticated reports true exactly when a non-empty
access token string is stored, regardless of the refresh token. -/
theorem is_authenticated_iff_access_token (st : Store) :
    isAuthenticated st = true ↔ ∃ t, st.auth_token = some t ∧ t ≠ "" := by
  cases h : st.auth_token with
  | none => simp [isAuthenticated, h]
  | some t => simp [isAuthenticated, h]

/-- C10: storing a credential pair and immediately reading it back yields the
same tokens — readPair returns the pair just written, and the access token
read by getAuthToken is the one just stored. -/
theorem set_then_get_roundtrip (st : Store) (t : AuthTokens) :
    readPair (storeTokens st t) = some t ∧
    getAuthToken (storeTokens st t) = some t.accessToken := by
  simp [readPair, storeTokens, getAuthToken]

end AuthCore
